import Mathlib

/-
Shallow embedding of the marstek2mqtt bridge core:
the Poller (Modbus poll cycle, controls table, write path) from Poller.js
and the MqttClient (command handling, topic subscription, discovery
republish throttle) from MqttClient.js.
-/

namespace Marstek2Mqtt

/-! ## Buffer decoding (Node Buffer read helpers used by Poller.poll)

A raw register block is a list of bytes.  Node's `Buffer.readUInt16BE` and
friends throw a RangeError when the requested offset is out of range; we
model this with `Except Unit`. -/

/-- Big-endian unsigned 16-bit read at a byte offset; fails out of range. -/
def readU16 (buf : List Nat) (off : Nat) : Except Unit Nat :=
  match buf.get? off, buf.get? (off+1) with
  | some a, some b => Except.ok (a * 256 + b)
  | _, _ => Except.error ()

/-- Reinterpret an unsigned 16-bit value as two's-complement signed. -/
def toS16 (u : Nat) : Int := if u < 32768 then (u : Int) else (u : Int) - 65536

/-- Big-endian signed 16-bit read (Buffer.readInt16BE). -/
def readI16 (buf : List Nat) (off : Nat) : Except Unit Int :=
  (readU16 buf off).map toS16

/-- Big-endian unsigned 32-bit read (Buffer.readUInt32BE). -/
def readU32 (buf : List Nat) (off : Nat) : Except Unit Nat :=
  match buf.get? off, buf.get? (off+1), buf.get? (off+2), buf.get? (off+3) with
  | some a, some b, some c, some d =>
      Except.ok (a * 16777216 + b * 65536 + c * 256 + d)
  | _, _, _, _ => Except.error ()

/-- Reinterpret an unsigned 32-bit value as two's-complement signed. -/
def toS32 (u : Nat) : Int :=
  if u < 2147483648 then (u : Int) else (u : Int) - 4294967296

/-- Big-endian signed 32-bit read (Buffer.readInt32BE). -/
def readI32 (buf : List Nat) (off : Nat) : Except Unit Int :=
  (readU32 buf off).map toS32

/-! ## Telemetry snapshot (the `data` object built by Poller.poll)

Scaled fields are rationals: the source multiplies raw register integers
by decimal scale factors (0.01, 0.1, 0.001, 0.004). -/

/-- The `data` object assembled by one successful `Poller.poll` cycle. -/
structure TelemetrySnapshot where
  battery_power : Int
  ac_power : Int
  battery_voltage : Rat
  battery_current : Rat
  battery_design_capacity : Rat
  ac_voltage : Rat
  ac_frequency : Rat
  ac_current : Rat
  soc : Nat
  max_cell_voltage : Rat
  min_cell_voltage : Rat
  total_energy_in : Rat
  total_energy_out : Rat
  internal_temperature : Rat
  internal_mos1_temperature : Rat
  internal_mos2_temperature : Rat
  max_cell_temperature : Rat
  min_cell_temperature : Rat
  inverter_state : Nat
  backup_function : Nat
  force_mode : Nat
  charge_to_soc : Nat
  set_charge_power : Nat
  set_discharge_power : Nat
  user_work_mode : Nat
deriving DecidableEq

/-- `Poller.poll`: the fixed read/decode sequence, parameterised over the
transport read `rb start length` (Poller.readBlock).  Any failed block
read or out-of-range buffer access aborts the whole cycle; the snapshot
is returned only if every field was produced. -/
def poll (rb : Nat → Nat → Except Unit (List Nat)) :
    Except Unit TelemetrySnapshot := do
  let power ← rb 30001 6
  let battery_power ← readI16 power 0
  let ac_power ← readI16 power 10
  let bat ← rb 30100 2
  let battery_voltage_raw ← readU16 bat 0
  let battery_current_raw ← readI16 bat 2
  let cap ← rb 32105 1
  let battery_design_capacity_raw ← readU16 cap 0
  let ac ← rb 32200 5
  let ac_voltage_raw ← readU16 ac 0
  let ac_frequency_raw ← readI16 ac 8
  let socb ← rb 37004 5
  let ac_current_raw ← readI16 socb 0
  let soc ← readU16 socb 2
  let max_cell_voltage_raw ← readU16 socb 6
  let min_cell_voltage_raw ← readU16 socb 8
  let nrg ← rb 33000 4
  let total_energy_in_raw ← readU32 nrg 0
  let total_energy_out_raw ← readI32 nrg 4
  let temp ← rb 35000 3
  let internal_temperature_raw ← readI16 temp 0
  let internal_mos1_temperature_raw ← readI16 temp 2
  let internal_mos2_temperature_raw ← readI16 temp 4
  let temp2 ← rb 35010 2
  let max_cell_temperature_raw ← readI16 temp2 0
  let min_cell_temperature_raw ← readI16 temp2 0
  let inv ← rb 35100 1
  let inverter_state ← readU16 inv 0
  let bk ← rb 41200 1
  let backup_function ← readU16 bk 0
  let ctrl1 ← rb 42010 2
  let force_mode ← readU16 ctrl1 0
  let charge_to_soc ← readU16 ctrl1 2
  let ctrl2 ← rb 42020 2
  let set_charge_power ← readU16 ctrl2 0
  let set_discharge_power ← readU16 ctrl2 2
  let uwm ← rb 43000 1
  let user_work_mode ← readU16 uwm 0
  return {
    battery_power := battery_power
    ac_power := ac_power
    battery_voltage := (battery_voltage_raw : Rat) * (1/100)
    battery_current := (battery_current_raw : Rat) * (1/10)
    battery_design_capacity := (battery_design_capacity_raw : Rat) * (1/1000)
    ac_voltage := (ac_voltage_raw : Rat) * (1/10)
    ac_frequency := (ac_frequency_raw : Rat) * (1/10)
    ac_current := (ac_current_raw : Rat) * (4/1000)
    soc := soc
    max_cell_voltage := (max_cell_voltage_raw : Rat) * (1/1000)
    min_cell_voltage := (min_cell_voltage_raw : Rat) * (1/1000)
    total_energy_in := (total_energy_in_raw : Rat) * (1/100)
    total_energy_out := (total_energy_out_raw : Rat) * (1/100)
    internal_temperature := (internal_temperature_raw : Rat) * (1/10)
    internal_mos1_temperature := (internal_mos1_temperature_raw : Rat) * (1/10)
    internal_mos2_temperature := (internal_mos2_temperature_raw : Rat) * (1/10)
    max_cell_temperature := (max_cell_temperature_raw : Rat) * (1/10)
    min_cell_temperature := (min_cell_temperature_raw : Rat) * (1/10)
    inverter_state := inverter_state
    backup_function := backup_function
    force_mode := force_mode
    charge_to_soc := charge_to_soc
    set_charge_power := set_charge_power
    set_discharge_power := set_discharge_power
    user_work_mode := user_work_mode }

/-! ## Polling loop tick (pollingLoop in Poller.initialize) -/

/-- Connection flag owned by the Poller (`this.connected`). -/
structure PollerState where
  connected : Bool
deriving DecidableEq

/-- One tick of `pollingLoop`: reconnect if disconnected (outcome of the
connect attempt supplied as `connectOutcome`), then, if connected, run one
poll cycle; a cycle error drops the connection flag and emits nothing. -/
def pollTick (st : PollerState) (connectOutcome : Bool)
    (rb : Nat → Nat → Except Unit (List Nat)) :
    PollerState × Option TelemetrySnapshot :=
  let st1 := if st.connected then st else { connected := connectOutcome }
  if st1.connected then
    match poll rb with
    | Except.ok snap => (st1, some snap)
    | Except.error _ => ({ connected := false }, none)
  else (st1, none)

/-- `setTimeout` delay computed at the end of each `pollingLoop` tick:
`interval - (Date.now() % interval)`. -/
def nextDelay (interval now : Nat) : Nat := interval - now % interval

/-! ## Write path (Poller.writeRegister)

The second component is the list of transport-level
`client.writeRegister` invocations performed. -/

/-- `Poller.writeRegister`: throws "Not connected" before any transport
call when the connection flag is down; otherwise performs exactly one
transport write. -/
def writeRegister (connected : Bool) (address : Nat) (value : Int) :
    Except String Unit × List (Nat × Int) :=
  if !connected then (Except.error "Not connected", [])
  else (Except.ok (), [(address, value)])

/-! ## Controls table (Poller.CONTROLS) and lookup helpers -/

/-- The `type` tag of a control: `"select"` or `"number"` in the source. -/
inductive ControlType
  | select
  | number
deriving DecidableEq

/-- One entry of `Poller.CONTROLS`.  Number controls carry no map in the
source; they get the empty map here. -/
structure Control where
  register : Nat
  type : ControlType
  map : List (Nat × String)
deriving DecidableEq

/-- `Poller.CONTROLS`, in source order. -/
def CONTROLS : List (String × Control) := [
  ("user_work_mode",
    { register := 43000, type := ControlType.select,
      map := [(0, "Manual"), (1, "Anti-Feed"), (2, "Trade")] }),
  ("force_mode",
    { register := 42010, type := ControlType.select,
      map := [(0, "Stop"), (1, "Charge"), (2, "Discharge")] }),
  ("backup_function",
    { register := 41200, type := ControlType.select,
      map := [(0, "Enable"), (1, "Disable")] }),
  ("set_charge_power",
    { register := 42020, type := ControlType.number, map := [] }),
  ("set_discharge_power",
    { register := 42021, type := ControlType.number, map := [] }),
  ("charge_to_soc",
    { register := 42011, type := ControlType.number, map := [] })]

/-- `Poller.READ_ONLY_LOOKUPS`: publish-only code-to-label map. -/
def READ_ONLY_LOOKUPS : List (String × List (Nat × String)) := [
  ("inverter_state",
    [(0, "Sleep"), (1, "Standby"), (2, "Charge"), (3, "Discharge"),
     (4, "Backup"), (5, "OTA"), (6, "Bypass")])]

/-- Key lookup in the controls table (`controls[key]`). -/
def findControl (key : String) : Option Control :=
  (CONTROLS.find? (fun p => p.1 == key)).map Prod.snd

/-- Code-to-label direction (`control.map[value]` when publishing). -/
def labelForCode (m : List (Nat × String)) (code : Nat) : Option String :=
  (m.find? (fun p => p.1 == code)).map Prod.snd

/-- Label-to-code direction used by command handling:
`Object.keys(control.map).find(k => control.map[k] === value)`. -/
def codeForLabel (m : List (Nat × String)) (label : String) : Option Nat :=
  (m.find? (fun p => p.2 == label)).map Prod.fst

/-- `Object.values(control.map).join(", ")` for the invalid-option warning. -/
def joinLabels (m : List (Nat × String)) : String :=
  String.intercalate ", " (m.map Prod.snd)

/-! ## JS helpers: String.prototype.split("/") and parseInt(x, 10) -/

/-- JS `topic.split("/")`: split on every slash, keeping empty segments. -/
def splitSlash : List Char → List (List Char)
  | [] => [[]]
  | c :: rest =>
    match splitSlash rest with
    | [] => if c = '/' then [[], []] else [[c]]
    | s :: ss => if c = '/' then [] :: s :: ss else (c :: s) :: ss

/-- Longest digit run at the front of the character list. -/
def leadingDigits (cs : List Char) : List Char := cs.takeWhile Char.isDigit

/-- Decimal value of a digit list. -/
def digitsVal (cs : List Char) : Nat :=
  cs.foldl (fun acc c => acc * 10 + (c.toNat - 48)) 0

/-- JS `parseInt(s, 10)`: skip leading whitespace, optional single sign,
then the longest decimal-digit run; NaN (here `none`) when that run is
empty. -/
def parseIntJS (s : String) : Option Int :=
  let cs := s.data.dropWhile Char.isWhitespace
  match cs with
  | [] => none
  | c :: rest =>
    if c = '-' then
      let ds := leadingDigits rest
      if ds.isEmpty then none else some (-(digitsVal ds : Int))
    else if c = '+' then
      let ds := leadingDigits rest
      if ds.isEmpty then none else some ((digitsVal ds : Int))
    else
      let ds := leadingDigits cs
      if ds.isEmpty then none else some ((digitsVal ds : Int))

/-! ## Command handling (MqttClient.handleCommand) -/

/-- Observable outcome of handling one inbound command message. -/
inductive CommandAction
  | write (register : Nat) (value : Int)
  | warnInvalidOption (value key expected : String)
  | warnInvalidNumber (value key : String)
  | warnUnknownKey (key : String)
  | ignore
deriving DecidableEq

/-- `MqttClient.handleCommand` after the topic has been split into
segments: require exactly 4 segments with the third literally "set",
then dispatch on the control's type. -/
def handleCommandParts (parts : List String) (payload : String) :
    CommandAction :=
  match parts with
  | [_, _, s2, key] =>
    if s2 = "set" then
      match findControl key with
      | none => CommandAction.warnUnknownKey key
      | some c =>
        match c.type with
        | ControlType.select =>
          match codeForLabel c.map payload with
          | some code => CommandAction.write c.register (Int.ofNat code)
          | none => CommandAction.warnInvalidOption payload key (joinLabels c.map)
        | ControlType.number =>
          match parseIntJS payload with
          | some v => CommandAction.write c.register v
          | none => CommandAction.warnInvalidNumber payload key
    else CommandAction.ignore
  | _ => CommandAction.ignore

/-- `MqttClient.handleCommand(topic, message)`. -/
def handleCommand (topic payload : String) : CommandAction :=
  handleCommandParts ((splitSlash topic.data).map (fun l => String.mk l)) payload

/-! ## Subscription topic (MqttClient.initialize) -/

/-- `MqttClient.TOPIC_PREFIX`. -/
def topicRoot : String := "marstek2mqtt"

/-- The command topic pattern subscribed on broker connect. -/
def commandTopic (identifier : String) : String :=
  topicRoot ++ "/" ++ identifier ++ "/set/#"

/-! ## Discovery metadata republish throttle (MqttClient.ensureAutoconf) -/

/-- The fixed republish interval: 4 hours in milliseconds. -/
def AUTOCONF_INTERVAL_MS : Int := 4 * 60 * 60 * 1000

/-- `MqttClient.ensureAutoconf` reduced to its clock logic: given the
current time and the stored `autoconfTimestamp` (both in ms), return
whether metadata was (re-)published and the updated timestamp. -/
def ensureAutoconf (now ts : Nat) : Bool × Nat :=
  if (now : Int) - (ts : Int) ≤ AUTOCONF_INTERVAL_MS then (false, ts)
  else (true, now)

/-! ## Concrete transport oracles used as evaluation witnesses -/

/-- Transport returning all-zero blocks of the correct byte length. -/
def rbZero : Nat → Nat → Except Unit (List Nat) :=
  fun _ len => Except.ok (List.replicate (len*2) 0)

/-- Transport failing every read. -/
def rbFail : Nat → Nat → Except Unit (List Nat) := fun _ _ => Except.error ()

/-- The snapshot `poll` produces over `rbZero`. -/
def snapZero : TelemetrySnapshot where
  battery_power := toS16 (0 * 256 + 0)
  ac_power := toS16 (0 * 256 + 0)
  battery_voltage := ((0 * 256 + 0 : Nat) : Rat) * (1/100)
  battery_current := ((toS16 (0 * 256 + 0) : Int) : Rat) * (1/10)
  battery_design_capacity := ((0 * 256 + 0 : Nat) : Rat) * (1/1000)
  ac_voltage := ((0 * 256 + 0 : Nat) : Rat) * (1/10)
  ac_frequency := ((toS16 (0 * 256 + 0) : Int) : Rat) * (1/10)
  ac_current := ((toS16 (0 * 256 + 0) : Int) : Rat) * (4/1000)
  soc := 0 * 256 + 0
  max_cell_voltage := ((0 * 256 + 0 : Nat) : Rat) * (1/1000)
  min_cell_voltage := ((0 * 256 + 0 : Nat) : Rat) * (1/1000)
  total_energy_in := ((0 : Nat) : Rat) * (1/100)
  total_energy_out := ((toS32 0 : Int) : Rat) * (1/100)
  internal_temperature := ((toS16 (0 * 256 + 0) : Int) : Rat) * (1/10)
  internal_mos1_temperature := ((toS16 (0 * 256 + 0) : Int) : Rat) * (1/10)
  internal_mos2_temperature := ((toS16 (0 * 256 + 0) : Int) : Rat) * (1/10)
  max_cell_temperature := ((toS16 (0 * 256 + 0) : Int) : Rat) * (1/10)
  min_cell_temperature := ((toS16 (0 * 256 + 0) : Int) : Rat) * (1/10)
  inverter_state := 0 * 256 + 0
  backup_function := 0 * 256 + 0
  force_mode := 0 * 256 + 0
  charge_to_soc := 0 * 256 + 0
  set_charge_power := 0 * 256 + 0
  set_discharge_power := 0 * 256 + 0
  user_work_mode := 0 * 256 + 0

/-! ## Theorems -/

/-- Claim C1: a command on topic `marstek2mqtt/One/set/force_mode` with
payload "Charge" resolves through the force_mode enumerated map to a
Poller write of value 1 to register 42010. -/
theorem handleCommand_force_mode_charge :
    handleCommand "marstek2mqtt/One/set/force_mode" "Charge"
      = CommandAction.write 42010 1 := by decide

/-- Claim C6: a command on topic `marstek2mqtt/One/set/force_mode` with
payload "Bogus" (not a defined label) performs no write and warns naming
the valid options Stop, Charge, Discharge. -/
theorem handleCommand_force_mode_bogus :
    handleCommand "marstek2mqtt/One/set/force_mode" "Bogus"
      = CommandAction.warnInvalidOption "Bogus" "force_mode"
          "Stop, Charge, Discharge" := by decide

/-- Claim C4: for every enumerated (select) control and every code in its
map, translating code to label and back yields the original code. -/
theorem controls_select_roundtrip :
    ∀ p ∈ CONTROLS, p.2.type = ControlType.select →
      ∀ q ∈ p.2.map,
        (labelForCode p.2.map q.1).bind (codeForLabel p.2.map) = some q.1 := by
  decide

/-- Witness for C4: the force_mode control, code 1 ("Charge"). -/
theorem controls_select_roundtrip_eval :
    (labelForCode [(0, "Stop"), (1, "Charge"), (2, "Discharge")] 1).bind
      (codeForLabel [(0, "Stop"), (1, "Charge"), (2, "Discharge")]) = some 1 :=
  controls_select_roundtrip
    ("force_mode",
      { register := 42010, type := ControlType.select,
        map := [(0, "Stop"), (1, "Charge"), (2, "Discharge")] })
    (by decide) (by decide) (1, "Charge") (by decide)

/-- Claim C3: a write while disconnected fails with the not-connected
error and performs no transport call, for every address and value. -/
theorem writeRegister_not_connected :
    ∀ (address : Nat) (value : Int),
      writeRegister false address value = (Except.error "Not connected", []) :=
  fun _ _ => rfl

/-- Claim C2: a poll cycle is all-or-nothing.  If the read sequence fails,
the tick emits no snapshot and leaves the connection flag down; and any
snapshot the tick emits is exactly the result of a fully successful
read sequence. -/
theorem pollTick_all_or_nothing (st : PollerState) (c : Bool)
    (rb : Nat → Nat → Except Unit (List Nat)) :
    ((poll rb).isOk = false →
      (pollTick st c rb).2 = none ∧ (pollTick st c rb).1.connected = false)
    ∧ ∀ snap, (pollTick st c rb).2 = some snap → poll rb = Except.ok snap := by
  constructor
  · intro hfail
    cases hp : poll rb with
    | ok s => rw [hp] at hfail; simp [Except.isOk, Except.toBool] at hfail
    | error e =>
      simp only [pollTick, hp]
      by_cases hc : st.connected <;> cases c <;> simp [hc]
  · intro snap hemit
    simp only [pollTick] at hemit
    cases hp : poll rb with
    | ok s =>
      rw [hp] at hemit
      by_cases hc : st.connected
      · simp [hc] at hemit
        rw [hemit]
      · cases c
        · simp [hc] at hemit
        · simp [hc] at hemit
          rw [hemit]
    | error e =>
      rw [hp] at hemit
      by_cases hc : st.connected
      · simp [hc] at hemit
      · cases c <;> simp [hc] at hemit

/-- Witness for C2: over the always-failing transport, a tick from the
connected state emits nothing and drops the connection flag. -/
theorem pollTick_all_or_nothing_eval :
    (pollTick { connected := true } true rbFail).2 = none
    ∧ (pollTick { connected := true } true rbFail).1.connected = false :=
  (pollTick_all_or_nothing { connected := true } true rbFail).1 (by rfl)

/-- Claim C5: discovery metadata republishes exactly when strictly more
than 4 hours elapsed since the stored timestamp; publishing stores the
current time; and a snapshot arriving 1 second after a publish triggers
no republish. -/
theorem ensureAutoconf_throttle (now ts : Nat) :
    ((ensureAutoconf now ts).1 = true
        ↔ AUTOCONF_INTERVAL_MS < (now : Int) - (ts : Int))
    ∧ ((ensureAutoconf now ts).1 = true → (ensureAutoconf now ts).2 = now)
    ∧ ((ensureAutoconf now ts).1 = true →
        (ensureAutoconf (now + 1000) (ensureAutoconf now ts).2).1 = false) := by
  by_cases h : (now : Int) - (ts : Int) ≤ AUTOCONF_INTERVAL_MS
  · refine ⟨?_, ?_, ?_⟩
    · simp only [ensureAutoconf, if_pos h]
      constructor
      · intro hb; exact absurd hb (by simp)
      · intro hlt; omega
    · simp [ensureAutoconf, h]
    · simp [ensureAutoconf, h]
  · refine ⟨?_, ?_, ?_⟩
    · simp only [ensureAutoconf, if_neg h]
      constructor
      · intro _; omega
      · intro _; trivial
    · simp [ensureAutoconf, h]
    · intro _
      simp only [ensureAutoconf, if_neg h]
      have h3 : (1000 : Int) ≤ AUTOCONF_INTERVAL_MS := by
        norm_num [AUTOCONF_INTERVAL_MS]
      simp [h3]

/-- Witness for C5: at time 14400001 ms with timestamp 0, metadata is
published and the timestamp becomes 14400001; 1000 ms later no republish
happens. -/
theorem ensureAutoconf_throttle_eval :
    (ensureAutoconf 14400001 0).1 = true
    ∧ (ensureAutoconf 14400001 0).2 = 14400001
    ∧ (ensureAutoconf (14400001 + 1000) (ensureAutoconf 14400001 0).2).1
        = false := by
  have h := ensureAutoconf_throttle 14400001 0
  have h1 : (ensureAutoconf 14400001 0).1 = true := h.1.mpr (by decide)
  exact ⟨h1, h.2.1 h1, h.2.2 h1⟩

/-- Claim C7: for every Numeric control, the payload is parsed as a
base-10 integer; exactly when parsing fails a warning is produced and no
write happens, and on success the write targets the control's register
with the parsed value. -/
theorem handleCommand_numeric (key : String) (c : Control)
    (hf : findControl key = some c) (ht : c.type = ControlType.number)
    (seg0 seg1 payload : String) :
    (parseIntJS payload = none →
      handleCommandParts [seg0, seg1, "set", key] payload
        = CommandAction.warnInvalidNumber payload key)
    ∧ ∀ v : Int, parseIntJS payload = some v →
        handleCommandParts [seg0, seg1, "set", key] payload
          = CommandAction.write c.register v := by
  obtain ⟨reg, ty, mp⟩ := c
  simp only at ht
  subst ht
  constructor
  · intro hn
    simp [handleCommandParts, hf, hn]
  · intro v hv
    simp [handleCommandParts, hf, hv]

/-- Witness for C7: payload "50" for charge_to_soc writes 50 to register
42011. -/
theorem handleCommand_numeric_eval :
    handleCommandParts ["marstek2mqtt", "One", "set", "charge_to_soc"] "50"
      = CommandAction.write 42011 50 :=
  (handleCommand_numeric "charge_to_soc"
    { register := 42011, type := ControlType.number, map := [] }
    (by decide) rfl "marstek2mqtt" "One" "50").2 50 (by decide)

/-- Claim C8: the delay scheduled after a tick is
`interval - now % interval`, and adding it to the current time lands
exactly on an interval boundary. -/
theorem nextDelay_alignment (interval now : Nat) (h : 0 < interval) :
    nextDelay interval now = interval - now % interval
    ∧ (now + nextDelay interval now) % interval = 0 := by
  refine ⟨rfl, ?_⟩
  have hm := Nat.div_add_mod now interval
  have hlt : now % interval < interval := Nat.mod_lt _ h
  have h2 : now + nextDelay interval now
      = interval * (now / interval) + interval := by
    unfold nextDelay; omega
  rw [h2]
  simp [Nat.mul_add_mod]

/-- Witness for C8: with a 5000 ms interval at time 1234, the delay is
3766 and the next tick starts on a boundary. -/
theorem nextDelay_alignment_eval :
    nextDelay 5000 1234 = 5000 - 1234 % 5000
    ∧ (1234 + nextDelay 5000 1234) % 5000 = 0 :=
  nextDelay_alignment 5000 1234 (by decide)

/-- Claim C9 counterexample: the subscribed command topic for identifier
"One" is not the single-level-wildcard pattern the claim states. -/
theorem commandTopic_not_plus :
    commandTopic "One" ≠ "marstek2mqtt/One/set/+" := by decide

/-- Claim C9 (amended): on broker connect the bridge subscribes to
`<prefix>/<deviceId>/set/#`, a multi-level wildcard after the set
segment. -/
theorem commandTopic_hash (identifier : String) :
    commandTopic identifier = "marstek2mqtt/" ++ identifier ++ "/set/#" := rfl

/-- Claim C10: in every snapshot emitted by a successful poll cycle the
max and min cell temperature fields are equal, both being decoded from
byte offset 0 of the block read at 35010 with the same 0.1 scale. -/
theorem snapshot_cell_temperatures_equal
    (rb : Nat → Nat → Except Unit (List Nat)) (snap : TelemetrySnapshot)
    (h : poll rb = Except.ok snap) :
    snap.max_cell_temperature = snap.min_cell_temperature := by
  simp only [poll, bind, Except.bind] at h
  repeat' split at h
  all_goals try simp_all [pure, Except.pure]
  all_goals (subst h; rfl)

/-- Witness for C10: the all-zero transport yields a successful cycle
whose two cell-temperature fields coincide. -/
theorem snapshot_cell_temperatures_equal_eval :
    poll rbZero = Except.ok snapZero
    ∧ snapZero.max_cell_temperature = snapZero.min_cell_temperature :=
  ⟨rfl, snapshot_cell_temperatures_equal rbZero snapZero rfl⟩

end Marstek2Mqtt
